import Mathlib

/-!
Shallow embedding of the Stockfighter market client (src/src/lib.rs).

The library exchanges JSON over HTTP.  We model a JSON document as an
inductive value, a serde-style derived decoder for each struct as a
function from JSON into Except, and each network-facing method as a pure
function from the pre-state of the caller-owned object and the outcome of
the single HTTP round trip to the post-state and the returned Result.
Response bodies arrive as an `Except String Json`: `Except.error` stands
for a body that is not syntactically valid JSON (serde_json's from_str
fails before shape checking), `Except.ok j` for a body whose JSON value is
`j`.  Machine i32 fields are modelled as Int; the serde i32 deserializer's
range check is kept explicitly in `asI32`.
-/

namespace Market

/-- JSON values, as produced by serde_json's parser.  Objects keep their
entries in document order (serde visits them sequentially); numbers are
modelled as integers, which covers every payload this client exchanges. -/
inductive Json where
  | null : Json
  | bool : Bool → Json
  | num : Int → Json
  | str : String → Json
  | arr : List Json → Json
  | obj : List (String × Json) → Json
  deriving Repr, BEq

/-- All values stored under a given key of an object, in document order. -/
def Json.lookupAll (es : List (String × Json)) (key : String) : List Json :=
  (es.filter fun p => p.fst == key).map Prod.snd

/-- Serde's handling of one known struct field: absent, present once, or a
duplicate-field error.  Unknown keys are ignored, as in derived serde
deserializers. -/
def getField (es : List (String × Json)) (key : String) :
    Except String (Option Json) :=
  match Json.lookupAll es key with
  | [] => Except.ok none
  | [v] => Except.ok (some v)
  | _ => Except.error ("duplicate field " ++ key)

/-- A struct field with no serde default attribute: its omission is a
missing-field error. -/
def reqField {A : Type} (es : List (String × Json)) (key : String)
    (parse : Json → Except String A) : Except String A :=
  match getField es key with
  | Except.error e => Except.error e
  | Except.ok none => Except.error ("missing field " ++ key)
  | Except.ok (some v) => parse v

/-- A struct field carrying serde(default): its omission yields the
default value instead of an error. -/
def optField {A : Type} (es : List (String × Json)) (key : String)
    (parse : Json → Except String A) (dflt : A) : Except String A :=
  match getField es key with
  | Except.error e => Except.error e
  | Except.ok none => Except.ok dflt
  | Except.ok (some v) => parse v

/-- Serde deserialization of a bool field. -/
def asBool : Json → Except String Bool
  | Json.bool b => Except.ok b
  | _ => Except.error "invalid type: expected bool"

/-- Serde deserialization of a String field. -/
def asString : Json → Except String String
  | Json.str s => Except.ok s
  | _ => Except.error "invalid type: expected string"

/-- Serde deserialization of an i32 field, with its range check. -/
def asI32 : Json → Except String Int
  | Json.num n =>
      if -2147483648 ≤ n ∧ n < 2147483648 then Except.ok n
      else Except.error "invalid value: integer out of range for i32"
  | _ => Except.error "invalid type: expected i32"

/-- Elementwise decoding of a JSON array, left to right, aborting at the
first element error — the visiting order of serde's Vec deserializer. -/
def mapDecode {A : Type} (parse : Json → Except String A) :
    List Json → Except String (List A)
  | [] => Except.ok []
  | x :: xs =>
      match parse x with
      | Except.error e => Except.error e
      | Except.ok a =>
          match mapDecode parse xs with
          | Except.error e => Except.error e
          | Except.ok rest => Except.ok (a :: rest)

/-- Serde deserialization of a Vec field: a JSON array whose elements are
decoded left to right. -/
def asVec {A : Type} (parse : Json → Except String A) :
    Json → Except String (List A)
  | Json.arr xs => mapDecode parse xs
  | _ => Except.error "invalid type: expected a sequence"

/-- The error enum StockfighterErr of lib.rs (lines 20-27).  Underlying
hyper / serde_json / std io errors are represented by their message. -/
inductive StockfighterErr where
  | Hyper (e : String)
  | Serde (e : String)
  | IoErr (e : String)
  | NoSuchVenue (msg : String)
  deriving Repr, BEq, DecidableEq

/-- Outcome of the one HTTP round trip a method performs: the send can
fail (hyper error), reading the body can fail (io error), or a body is
obtained — given here as its parse result, Except.error for a body that is
not valid JSON. -/
inductive HttpOutcome where
  | sendErr (e : String)
  | readErr (e : String)
  | body (b : Except String Json)

/-- serde_json::from_str as used by the library: a syntactic parse failure
propagates, otherwise the shape decoder for the target type runs. -/
def from_str {A : Type} (dec : Json → Except String A) :
    Except String Json → Except String A
  | Except.error e => Except.error e
  | Except.ok j => dec j

/-- Base URL of the API (lib.rs line 18). -/
def STOCKFIGHTER_API_URL : String := "https://api.stockfighter.io/ob/api"

/-- The struct StockfighterVenue (lib.rs lines 69-78): venue and error
carry serde(default), ok does not. -/
structure StockfighterVenue where
  venue : String
  ok : Bool
  error : String
  deriving Repr, BEq, DecidableEq

/-- The serde-derived deserializer for StockfighterVenue: ok is required,
venue and error default to the empty string when omitted. -/
def decodeVenue : Json → Except String StockfighterVenue
  | Json.obj es =>
      match optField es "venue" asString "" with
      | Except.error e => Except.error e
      | Except.ok venue =>
        match reqField es "ok" asBool with
        | Except.error e => Except.error e
        | Except.ok ok =>
          match optField es "error" asString "" with
          | Except.error e => Except.error e
          | Except.ok error =>
              Except.ok { venue := venue, ok := ok, error := error }
  | _ => Except.error "invalid type: expected struct StockfighterVenue"

/-- StockfighterVenue::new (lib.rs lines 133-139). -/
def StockfighterVenue.new (venue : String) : StockfighterVenue :=
  { venue := venue, ok := false, error := "" }

/-- StockfighterVenue::heartbeat (lib.rs lines 117-131): sets self.ok to
false, performs one GET, propagates send and read errors via try!, decodes
the body with a single serde_json::from_str into StockfighterVenue
(converted to StockfighterErr::Serde on failure), replaces self wholesale
with the decoded value via mem::replace, and returns Ok(self.ok). -/
def StockfighterVenue.heartbeat (self : StockfighterVenue)
    (resp : HttpOutcome) :
    StockfighterVenue × Except StockfighterErr Bool :=
  let s1 : StockfighterVenue := { self with ok := false }
  match resp with
  | HttpOutcome.sendErr e => (s1, Except.error (StockfighterErr.Hyper e))
  | HttpOutcome.readErr e => (s1, Except.error (StockfighterErr.IoErr e))
  | HttpOutcome.body b =>
      match from_str decodeVenue b with
      | Except.error e => (s1, Except.error (StockfighterErr.Serde e))
      | Except.ok v => (v, Except.ok v.ok)

/-- get_apikey (lib.rs lines 224-226) reads the STOCKFIGHTERAPI
environment variable; the ambient environment value is a parameter of the
model. -/
def get_apikey (stockfighterapi_env : String) : String :=
  stockfighterapi_env

/-- The struct OrderFill (lib.rs lines 262-270): every field carries
serde(default). -/
structure OrderFill where
  price : Int
  qty : Int
  ts : String
  deriving Repr, BEq, DecidableEq

/-- The serde-derived deserializer for OrderFill. -/
def decodeOrderFill : Json → Except String OrderFill
  | Json.obj es =>
      match optField es "price" asI32 0 with
      | Except.error e => Except.error e
      | Except.ok price =>
        match optField es "qty" asI32 0 with
        | Except.error e => Except.error e
        | Except.ok qty =>
          match optField es "ts" asString "" with
          | Except.error e => Except.error e
          | Except.ok ts => Except.ok { price := price, qty := qty, ts := ts }
  | _ => Except.error "invalid type: expected struct OrderFill"

/-- The struct OrderResponse (lib.rs lines 228-259): ok is required,
everything else carries serde(default); originalQty, orderType and
totalFilled are the wire names of original_qty, order_type and
total_filled. -/
structure OrderResponse where
  ok : Bool
  error : String
  symbol : String
  venue : String
  direction : String
  original_qty : Int
  qty : Int
  price : Int
  order_type : String
  id : Int
  account : String
  ts : String
  fills : List OrderFill
  total_filled : Int
  «open» : Bool
  deriving Repr, BEq, DecidableEq

/-- The serde-derived deserializer for OrderResponse. -/
def decodeOrderResponse : Json → Except String OrderResponse
  | Json.obj es =>
      match reqField es "ok" asBool with
      | Except.error e => Except.error e
      | Except.ok ok =>
        match optField es "error" asString "" with
        | Except.error e => Except.error e
        | Except.ok error =>
          match optField es "symbol" asString "" with
          | Except.error e => Except.error e
          | Except.ok symbol =>
            match optField es "venue" asString "" with
            | Except.error e => Except.error e
            | Except.ok venue =>
              match optField es "direction" asString "" with
              | Except.error e => Except.error e
              | Except.ok direction =>
                match optField es "originalQty" asI32 0 with
                | Except.error e => Except.error e
                | Except.ok original_qty =>
                  match optField es "qty" asI32 0 with
                  | Except.error e => Except.error e
                  | Except.ok qty =>
                    match optField es "price" asI32 0 with
                    | Except.error e => Except.error e
                    | Except.ok price =>
                      match optField es "orderType" asString "" with
                      | Except.error e => Except.error e
                      | Except.ok order_type =>
                        match optField es "id" asI32 0 with
                        | Except.error e => Except.error e
                        | Except.ok id =>
                          match optField es "account" asString "" with
                          | Except.error e => Except.error e
                          | Except.ok account =>
                            match optField es "ts" asString "" with
                            | Except.error e => Except.error e
                            | Except.ok ts =>
                              match optField es "fills" (asVec decodeOrderFill) [] with
                              | Except.error e => Except.error e
                              | Except.ok fills =>
                                match optField es "totalFilled" asI32 0 with
                                | Except.error e => Except.error e
                                | Except.ok total_filled =>
                                  match optField es "open" asBool false with
                                  | Except.error e => Except.error e
                                  | Except.ok op =>
                                      Except.ok
                                        { ok := ok, error := error,
                                          symbol := symbol, venue := venue,
                                          direction := direction,
                                          original_qty := original_qty,
                                          qty := qty, price := price,
                                          order_type := order_type, id := id,
                                          account := account, ts := ts,
                                          fills := fills,
                                          total_filled := total_filled,
                                          «open» := op }
  | _ => Except.error "invalid type: expected struct OrderResponse"

/-- The struct Order (lib.rs lines 272-282): no field carries
serde(default); order_type has the wire name orderType. -/
structure Order where
  account : String
  venue : String
  stock : String
  price : Int
  qty : Int
  direction : String
  order_type : String
  deriving Repr, BEq, DecidableEq

/-- Order::new (lib.rs lines 285-302): a plain constructor. -/
def Order.new (account venue stock : String) (price qty : Int)
    (direction order_type : String) : Order :=
  { account := account, venue := venue, stock := stock, price := price,
    qty := qty, direction := direction, order_type := order_type }

/-- The serde-derived deserializer for Order: all seven fields required. -/
def decodeOrder : Json → Except String Order
  | Json.obj es =>
      match reqField es "account" asString with
      | Except.error e => Except.error e
      | Except.ok account =>
        match reqField es "venue" asString with
        | Except.error e => Except.error e
        | Except.ok venue =>
          match reqField es "stock" asString with
          | Except.error e => Except.error e
          | Except.ok stock =>
            match reqField es "price" asI32 with
            | Except.error e => Except.error e
            | Except.ok price =>
              match reqField es "qty" asI32 with
              | Except.error e => Except.error e
              | Except.ok qty =>
                match reqField es "direction" asString with
                | Except.error e => Except.error e
                | Except.ok direction =>
                  match reqField es "orderType" asString with
                  | Except.error e => Except.error e
                  | Except.ok order_type =>
                      Except.ok
                        { account := account, venue := venue,
                          stock := stock, price := price, qty := qty,
                          direction := direction, order_type := order_type }
  | _ => Except.error "invalid type: expected struct Order"

/-- Order::encode_order (lib.rs lines 304-307): serde_json::to_string of
self, here at the JSON-value level.  The serde-derived serializer emits
the fields in declaration order under their wire names. -/
def Order.encode_order (self : Order) : Json :=
  Json.obj [("account", Json.str self.account),
            ("venue", Json.str self.venue),
            ("stock", Json.str self.stock),
            ("price", Json.num self.price),
            ("qty", Json.num self.qty),
            ("direction", Json.str self.direction),
            ("orderType", Json.str self.order_type)]

/-- Order::order_url (lib.rs lines 309-315). -/
def Order.order_url (self : Order) : String :=
  STOCKFIGHTER_API_URL ++ "/venues/" ++ self.venue ++ "/stocks/" ++
    self.stock ++ "/orders"

/-- The HTTP request process_order assembles before sending. -/
structure Request where
  url : String
  headerName : String
  headerValue : String
  body : Json
  deriving Repr

/-- Order::process_order (lib.rs lines 317-333): POSTs the encoded order
to order_url with the api key under the raw header
X-Starfighter-Authorization, propagates send and read errors via try!,
and single-shape decodes the response into OrderResponse (failure becomes
StockfighterErr::Serde). -/
def Order.process_order (self : Order) (stockfighterapi_env : String)
    (resp : HttpOutcome) : Request × Except StockfighterErr OrderResponse :=
  let req : Request :=
    { url := self.order_url,
      headerName := "X-Starfighter-Authorization",
      headerValue := get_apikey stockfighterapi_env,
      body := self.encode_order }
  let res : Except StockfighterErr OrderResponse :=
    match resp with
    | HttpOutcome.sendErr e => Except.error (StockfighterErr.Hyper e)
    | HttpOutcome.readErr e => Except.error (StockfighterErr.IoErr e)
    | HttpOutcome.body b =>
        match from_str decodeOrderResponse b with
        | Except.error e => Except.error (StockfighterErr.Serde e)
        | Except.ok r => Except.ok r
  (req, res)

/-- The struct Bid (lib.rs lines 353-359): all fields required; is_buy
has the wire name isBuy. -/
structure Bid where
  price : Int
  qty : Int
  is_buy : Bool
  deriving Repr, BEq, DecidableEq

/-- The serde-derived deserializer for Bid. -/
def decodeBid : Json → Except String Bid
  | Json.obj es =>
      match reqField es "price" asI32 with
      | Except.error e => Except.error e
      | Except.ok price =>
        match reqField es "qty" asI32 with
        | Except.error e => Except.error e
        | Except.ok qty =>
          match reqField es "isBuy" asBool with
          | Except.error e => Except.error e
          | Except.ok is_buy =>
              Except.ok { price := price, qty := qty, is_buy := is_buy }
  | _ => Except.error "invalid type: expected struct Bid"

/-- The struct OrderBook (lib.rs lines 361-369): all six fields required
(none carries serde(default)). -/
structure OrderBook where
  ok : Bool
  venue : String
  symbol : String
  bids : List Bid
  asks : List Bid
  ts : String
  deriving Repr, BEq, DecidableEq

/-- The serde-derived deserializer for OrderBook: bids and asks are Vec
fields decoded element by element in document order. -/
def decodeOrderBook : Json → Except String OrderBook
  | Json.obj es =>
      match reqField es "ok" asBool with
      | Except.error e => Except.error e
      | Except.ok ok =>
        match reqField es "venue" asString with
        | Except.error e => Except.error e
        | Except.ok venue =>
          match reqField es "symbol" asString with
          | Except.error e => Except.error e
          | Except.ok symbol =>
            match reqField es "bids" (asVec decodeBid) with
            | Except.error e => Except.error e
            | Except.ok bids =>
              match reqField es "asks" (asVec decodeBid) with
              | Except.error e => Except.error e
              | Except.ok asks =>
                match reqField es "ts" asString with
                | Except.error e => Except.error e
                | Except.ok ts =>
                    Except.ok
                      { ok := ok, venue := venue, symbol := symbol,
                        bids := bids, asks := asks, ts := ts }
  | _ => Except.error "invalid type: expected struct OrderBook"

/-- OrderBook::new (lib.rs lines 389-398). -/
def OrderBook.new (venue stock : String) : OrderBook :=
  { ok := false, venue := venue, symbol := stock, bids := [], asks := [],
    ts := "" }

/-- OrderBook::refresh (lib.rs lines 372-387): sets self.ok to false,
performs one GET, propagates send and read errors, single-shape decodes
the body into OrderBook, replaces self wholesale via mem::replace and
returns Ok(self.ok). -/
def OrderBook.refresh (self : OrderBook) (resp : HttpOutcome) :
    OrderBook × Except StockfighterErr Bool :=
  let s1 : OrderBook := { self with ok := false }
  match resp with
  | HttpOutcome.sendErr e => (s1, Except.error (StockfighterErr.Hyper e))
  | HttpOutcome.readErr e => (s1, Except.error (StockfighterErr.IoErr e))
  | HttpOutcome.body b =>
      match from_str decodeOrderBook b with
      | Except.error e => (s1, Except.error (StockfighterErr.Serde e))
      | Except.ok ob => (ob, Except.ok ob.ok)

/-- The struct Quote (lib.rs lines 401-426): ok, symbol and venue are
required; every other field carries serde(default); bidSize, askSize,
bidDepth, askDepth, lastSize, lastTrade and quoteTime are wire names. -/
structure Quote where
  ok : Bool
  symbol : String
  venue : String
  bid : Int
  ask : Int
  bid_size : Int
  ask_size : Int
  bid_depth : Int
  ask_depth : Int
  last : Int
  last_size : Int
  last_trade : String
  quote_time : String
  deriving Repr, BEq, DecidableEq

/-- The serde-derived deserializer for Quote. -/
def decodeQuote : Json → Except String Quote
  | Json.obj es =>
      match reqField es "ok" asBool with
      | Except.error e => Except.error e
      | Except.ok ok =>
        match reqField es "symbol" asString with
        | Except.error e => Except.error e
        | Except.ok symbol =>
          match reqField es "venue" asString with
          | Except.error e => Except.error e
          | Except.ok venue =>
            match optField es "bid" asI32 0 with
            | Except.error e => Except.error e
            | Except.ok bid =>
              match optField es "ask" asI32 0 with
              | Except.error e => Except.error e
              | Except.ok ask =>
                match optField es "bidSize" asI32 0 with
                | Except.error e => Except.error e
                | Except.ok bid_size =>
                  match optField es "askSize" asI32 0 with
                  | Except.error e => Except.error e
                  | Except.ok ask_size =>
                    match optField es "bidDepth" asI32 0 with
                    | Except.error e => Except.error e
                    | Except.ok bid_depth =>
                      match optField es "askDepth" asI32 0 with
                      | Except.error e => Except.error e
                      | Except.ok ask_depth =>
                        match optField es "last" asI32 0 with
                        | Except.error e => Except.error e
                        | Except.ok last =>
                          match optField es "lastSize" asI32 0 with
                          | Except.error e => Except.error e
                          | Except.ok last_size =>
                            match optField es "lastTrade" asString "" with
                            | Except.error e => Except.error e
                            | Except.ok last_trade =>
                              match optField es "quoteTime" asString "" with
                              | Except.error e => Except.error e
                              | Except.ok quote_time =>
                                  Except.ok
                                    { ok := ok, symbol := symbol,
                                      venue := venue, bid := bid, ask := ask,
                                      bid_size := bid_size,
                                      ask_size := ask_size,
                                      bid_depth := bid_depth,
                                      ask_depth := ask_depth, last := last,
                                      last_size := last_size,
                                      last_trade := last_trade,
                                      quote_time := quote_time }
  | _ => Except.error "invalid type: expected struct Quote"

/-- Quote::new (lib.rs lines 429-447). -/
def Quote.new (venue symbol : String) : Quote :=
  { ok := false, symbol := symbol, venue := venue, bid := 0, ask := 0,
    bid_size := 0, ask_size := 0, bid_depth := 0, ask_depth := 0,
    last := 0, last_size := 0, last_trade := "", quote_time := "" }

/-- Quote::get_quote (lib.rs lines 480-495): sets self.ok to false,
performs one GET, propagates send and read errors, single-shape decodes
the body into Quote, replaces self wholesale via mem::replace and returns
the literal Ok(true) — not the decoded ok field. -/
def Quote.get_quote (self : Quote) (resp : HttpOutcome) :
    Quote × Except StockfighterErr Bool :=
  let s1 : Quote := { self with ok := false }
  match resp with
  | HttpOutcome.sendErr e => (s1, Except.error (StockfighterErr.Hyper e))
  | HttpOutcome.readErr e => (s1, Except.error (StockfighterErr.IoErr e))
  | HttpOutcome.body b =>
      match from_str decodeQuote b with
      | Except.error e => (s1, Except.error (StockfighterErr.Serde e))
      | Except.ok q => (q, Except.ok true)

/-! Claim theorems. -/

/-- C1 (counterexample): the well-formed failure-shape payload
{"ok":false,"error":"No venue exists with that id"} does not make
heartbeat return the domain error StockfighterErr::NoSuchVenue.  The
single-shape decode accepts the payload (venue defaulting to the empty
string), so heartbeat returns Ok(false). -/
theorem heartbeat_failure_payload_not_nosuchvenue :
    ((StockfighterVenue.new "TESTEX").heartbeat
        (HttpOutcome.body (Except.ok (Json.obj
          [("ok", Json.bool false),
           ("error", Json.str "No venue exists with that id")])))).2 ≠
      Except.error
        (StockfighterErr.NoSuchVenue "No venue exists with that id") ∧
    ((StockfighterVenue.new "TESTEX").heartbeat
        (HttpOutcome.body (Except.ok (Json.obj
          [("ok", Json.bool false),
           ("error", Json.str "No venue exists with that id")])))).2 =
      Except.ok false :=
  ⟨fun h => Except.noConfusion h, rfl⟩

/-- C1 (amended): for every prior venue state, heartbeat on the
failure-shape payload {"ok":false,"error":"No venue exists with that id"}
decodes it successfully into the venue struct (venue defaulting to the
empty string), fully replaces the venue object — leaving the liveness
flag ok false and the server-provided message in the error field — and
returns Ok(false); no NoSuchVenue domain error is produced. -/
theorem heartbeat_failure_payload_full_replace :
    ∀ v : StockfighterVenue,
      v.heartbeat (HttpOutcome.body (Except.ok (Json.obj
          [("ok", Json.bool false),
           ("error", Json.str "No venue exists with that id")]))) =
        ({ venue := "", ok := false,
           error := "No venue exists with that id" }, Except.ok false) :=
  fun _ => rfl

/-- C2: whenever the body fed to the venue-heartbeat decoder fails the
decode into StockfighterVenue — in particular whenever it matches neither
the success shape nor the failure shape, both of which that decode
accepts — heartbeat returns exactly StockfighterErr::Serde wrapping the
parse diagnostic, and the venue object keeps its fields with ok set to
false: no panic (the model is a total function) and no silently-defaulted
success value. -/
theorem heartbeat_decode_failure_is_serde
    (v : StockfighterVenue) (b : Except String Json) (e : String)
    (h : from_str decodeVenue b = Except.error e) :
    v.heartbeat (HttpOutcome.body b) =
      ({ v with ok := false }, Except.error (StockfighterErr.Serde e)) := by
  simp [StockfighterVenue.heartbeat, h]

/-- C2 (witness): the empty JSON object matches neither shape (ok is
required by both) and yields exactly a Serde error. -/
theorem heartbeat_decode_failure_is_serde_witness :
    (StockfighterVenue.new "TESTEX").heartbeat
        (HttpOutcome.body (Except.ok (Json.obj []))) =
      ({ venue := "TESTEX", ok := false, error := "" },
        Except.error (StockfighterErr.Serde "missing field ok")) :=
  heartbeat_decode_failure_is_serde (StockfighterVenue.new "TESTEX")
    (Except.ok (Json.obj [])) "missing field ok" rfl

/-- C3: whenever the response body decodes successfully as a Quote,
get_quote returns the literal Ok(true) — not the decoded payload's ok
field — and the decoded value fully replaces the caller's Quote object,
its ok flag included. -/
theorem get_quote_returns_literal_true
    (q : Quote) (b : Except String Json) (qv : Quote)
    (h : from_str decodeQuote b = Except.ok qv) :
    q.get_quote (HttpOutcome.body b) = (qv, Except.ok true) := by
  simp [Quote.get_quote, h]

/-- C3 (witness): a payload whose decoded ok field is false still makes
get_quote return Ok(true), and the ok := false value replaces the
caller's object. -/
theorem get_quote_returns_literal_true_witness :
    (Quote.new "TESTEX" "FOOBAR").get_quote
        (HttpOutcome.body (Except.ok (Json.obj
          [("ok", Json.bool false), ("symbol", Json.str "FOOBAR"),
           ("venue", Json.str "TESTEX")]))) =
      ({ ok := false, symbol := "FOOBAR", venue := "TESTEX", bid := 0,
         ask := 0, bid_size := 0, ask_size := 0, bid_depth := 0,
         ask_depth := 0, last := 0, last_size := 0, last_trade := "",
         quote_time := "" }, Except.ok true) :=
  get_quote_returns_literal_true (Quote.new "TESTEX" "FOOBAR")
    (Except.ok (Json.obj
      [("ok", Json.bool false), ("symbol", Json.str "FOOBAR"),
       ("venue", Json.str "TESTEX")]))
    { ok := false, symbol := "FOOBAR", venue := "TESTEX", bid := 0,
      ask := 0, bid_size := 0, ask_size := 0, bid_depth := 0,
      ask_depth := 0, last := 0, last_size := 0, last_trade := "",
      quote_time := "" } rfl

/-- C4: on any failure of Quote::get_quote or OrderBook::refresh —
transport error, body-read error or decode error, summarized as the call
returning Err — the snapshot afterwards equals its prior state with only
the ok flag forced to false: every data field keeps the value it had
before the call. -/
theorem snapshot_failure_frame
    (q : Quote) (ob : OrderBook) (r r2 : HttpOutcome)
    (hq : ∃ e, (q.get_quote r).2 = Except.error e)
    (hb : ∃ e, (ob.refresh r2).2 = Except.error e) :
    (q.get_quote r).1 = { q with ok := false } ∧
    (ob.refresh r2).1 = { ob with ok := false } := by
  constructor
  · obtain ⟨e, he⟩ := hq
    cases r with
    | sendErr s => rfl
    | readErr s => rfl
    | body b =>
        cases hfs : from_str decodeQuote b with
        | error s => simp [Quote.get_quote, hfs]
        | ok qv => simp [Quote.get_quote, hfs] at he
  · obtain ⟨e, he⟩ := hb
    cases r2 with
    | sendErr s => rfl
    | readErr s => rfl
    | body b =>
        cases hfs : from_str decodeOrderBook b with
        | error s => simp [OrderBook.refresh, hfs]
        | ok bv => simp [OrderBook.refresh, hfs] at he

/-- C4 (witness): a quote holding stale data hit by a transport error and
an order book holding stale data hit by a decode error both keep their
data fields, with ok forced to false. -/
theorem snapshot_failure_frame_witness :
    (({ ok := true, symbol := "FOOBAR", venue := "TESTEX", bid := 90,
        ask := 95, bid_size := 1, ask_size := 2, bid_depth := 3,
        ask_depth := 4, last := 93, last_size := 5, last_trade := "t1",
        quote_time := "t2" } : Quote).get_quote
          (HttpOutcome.sendErr "connection refused")).1 =
      { ok := false, symbol := "FOOBAR", venue := "TESTEX", bid := 90,
        ask := 95, bid_size := 1, ask_size := 2, bid_depth := 3,
        ask_depth := 4, last := 93, last_size := 5, last_trade := "t1",
        quote_time := "t2" } ∧
    (({ ok := true, venue := "TESTEX", symbol := "FOOBAR",
        bids := [{ price := 10, qty := 5, is_buy := true }], asks := [],
        ts := "t3" } : OrderBook).refresh
          (HttpOutcome.body (Except.ok (Json.obj [])))).1 =
      { ok := false, venue := "TESTEX", symbol := "FOOBAR",
        bids := [{ price := 10, qty := 5, is_buy := true }], asks := [],
        ts := "t3" } :=
  snapshot_failure_frame _ _ _ _
    ⟨StockfighterErr.Hyper "connection refused", rfl⟩
    ⟨StockfighterErr.Serde "missing field ok", rfl⟩

/-- C5: whenever the body decodes successfully into StockfighterVenue,
heartbeat fully replaces every field of the caller's venue object with
the freshly decoded value (a full replace, not a merge) and returns the
decoded ok flag; in particular every success-shape payload
{"ok":true,"venue":v} — {"ok":true,"venue":"TESTEX"} among them — yields
Ok(true) and the state (venue := v, ok := true, error := ""), whatever
the prior state was. -/
theorem heartbeat_success_full_replace :
    (∀ (v : StockfighterVenue) (b : Except String Json)
      (sv : StockfighterVenue),
      from_str decodeVenue b = Except.ok sv →
      v.heartbeat (HttpOutcome.body b) = (sv, Except.ok sv.ok)) ∧
    (∀ (v : StockfighterVenue) (ven : String),
      v.heartbeat (HttpOutcome.body (Except.ok (Json.obj
          [("ok", Json.bool true), ("venue", Json.str ven)]))) =
        ({ venue := ven, ok := true, error := "" }, Except.ok true)) := by
  constructor
  · intro v b sv h
    simp [StockfighterVenue.heartbeat, h]
  · intro v ven
    rfl

/-- C5 (witness): the payload {"ok":true,"venue":"TESTEX"} makes
heartbeat return Ok(true) and overwrite all three fields of a venue
object that started as new("ABCDEF"). -/
theorem heartbeat_success_full_replace_witness :
    (StockfighterVenue.new "ABCDEF").heartbeat
        (HttpOutcome.body (Except.ok (Json.obj
          [("ok", Json.bool true), ("venue", Json.str "TESTEX")]))) =
      ({ venue := "TESTEX", ok := true, error := "" }, Except.ok true) :=
  heartbeat_success_full_replace.1 (StockfighterVenue.new "ABCDEF")
    (Except.ok (Json.obj
      [("ok", Json.bool true), ("venue", Json.str "TESTEX")]))
    { venue := "TESTEX", ok := true, error := "" } rfl

/-- C6 (counterexample): omitted string fields do not all decode to the
empty string — symbol and venue carry no serde(default), so a quote
payload omitting venue is a decode error, not a Quote with venue = "". -/
theorem quote_missing_venue_errors :
    decodeQuote (Json.obj
        [("ok", Json.bool true), ("symbol", Json.str "FOOBAR")]) =
      Except.error "missing field venue" :=
  rfl

/-- C6 (amended): a quote payload omitting the optional fields last and
lastSize decodes without error to last = 0 and last_size = 0, and in
general the serde(default) fields — all numeric fields and the strings
lastTrade and quoteTime, but not the required ok, symbol and venue —
decode to zero respectively empty when omitted. -/
theorem quote_optional_fields_default :
    decodeQuote (Json.obj
        [("ok", Json.bool true), ("symbol", Json.str "FOOBAR"),
         ("venue", Json.str "TESTEX"), ("bid", Json.num 100),
         ("ask", Json.num 110), ("bidSize", Json.num 5),
         ("askSize", Json.num 6), ("bidDepth", Json.num 50),
         ("askDepth", Json.num 60), ("lastTrade", Json.str "t1"),
         ("quoteTime", Json.str "t2")]) =
      Except.ok
        { ok := true, symbol := "FOOBAR", venue := "TESTEX", bid := 100,
          ask := 110, bid_size := 5, ask_size := 6, bid_depth := 50,
          ask_depth := 60, last := 0, last_size := 0, last_trade := "t1",
          quote_time := "t2" } ∧
    ∀ okv sym ven,
      decodeQuote (Json.obj
          [("ok", Json.bool okv), ("symbol", Json.str sym),
           ("venue", Json.str ven)]) =
        Except.ok
          { ok := okv, symbol := sym, venue := ven, bid := 0, ask := 0,
            bid_size := 0, ask_size := 0, bid_depth := 0, ask_depth := 0,
            last := 0, last_size := 0, last_trade := "",
            quote_time := "" } :=
  ⟨rfl, fun _ _ _ => rfl⟩

/-- C7: order-book decoding preserves the server-provided order of the
bid and ask sequences.  For every payload whose bids array is
[(10,5,true),(9,3,true)] — the other fields arbitrary — the decoded bids
sequence is exactly [(10,5,true),(9,3,true)] in that order, and
symmetrically for a payload whose asks array is [(10,5,true),(9,3,true)];
in both parts the opposite side decodes to exactly what the element-wise
decode of its array yields, in document order. -/
theorem orderbook_bids_order_preserved
    (okv : Bool) (venue symbol ts : String) (otherJ : List Json)
    (other : List Bid)
    (h : mapDecode decodeBid otherJ = Except.ok other) :
    decodeOrderBook (Json.obj
        [("ok", Json.bool okv), ("venue", Json.str venue),
         ("symbol", Json.str symbol),
         ("bids", Json.arr
           [Json.obj [("price", Json.num 10), ("qty", Json.num 5),
                      ("isBuy", Json.bool true)],
            Json.obj [("price", Json.num 9), ("qty", Json.num 3),
                      ("isBuy", Json.bool true)]]),
         ("asks", Json.arr otherJ), ("ts", Json.str ts)]) =
      Except.ok
        { ok := okv, venue := venue, symbol := symbol,
          bids := [{ price := 10, qty := 5, is_buy := true },
                   { price := 9, qty := 3, is_buy := true }],
          asks := other, ts := ts } ∧
    decodeOrderBook (Json.obj
        [("ok", Json.bool okv), ("venue", Json.str venue),
         ("symbol", Json.str symbol), ("bids", Json.arr otherJ),
         ("asks", Json.arr
           [Json.obj [("price", Json.num 10), ("qty", Json.num 5),
                      ("isBuy", Json.bool true)],
            Json.obj [("price", Json.num 9), ("qty", Json.num 3),
                      ("isBuy", Json.bool true)]]),
         ("ts", Json.str ts)]) =
      Except.ok
        { ok := okv, venue := venue, symbol := symbol, bids := other,
          asks := [{ price := 10, qty := 5, is_buy := true },
                   { price := 9, qty := 3, is_buy := true }],
          ts := ts } := by
  constructor
  · simp [decodeOrderBook, reqField, getField, Json.lookupAll, asBool,
      asString, asVec, mapDecode, decodeBid, asI32, h]
  · simp [decodeOrderBook, reqField, getField, Json.lookupAll, asBool,
      asString, asVec, mapDecode, decodeBid, asI32, h]

/-- C7 (witness): with the opposite side empty, a concrete payload whose
bids array is [(10,5,true),(9,3,true)] decodes to exactly that bid
sequence in that order. -/
theorem orderbook_bids_order_preserved_witness :
    decodeOrderBook (Json.obj
        [("ok", Json.bool true), ("venue", Json.str "TESTEX"),
         ("symbol", Json.str "FOOBAR"),
         ("bids", Json.arr
           [Json.obj [("price", Json.num 10), ("qty", Json.num 5),
                      ("isBuy", Json.bool true)],
            Json.obj [("price", Json.num 9), ("qty", Json.num 3),
                      ("isBuy", Json.bool true)]]),
         ("asks", Json.arr []), ("ts", Json.str "t1")]) =
      Except.ok
        { ok := true, venue := "TESTEX", symbol := "FOOBAR",
          bids := [{ price := 10, qty := 5, is_buy := true },
                   { price := 9, qty := 3, is_buy := true }],
          asks := [], ts := "t1" } :=
  (orderbook_bids_order_preserved true "TESTEX" "FOOBAR" "t1" [] [] rfl).1

/-- C8: serializing an Order with encode_order and decoding the JSON back
with the derived Order decoder recovers the original order in every field
— the order_type field travelling under the wire name orderType — for
every order whose numeric fields lie in i32 range (an invariant of the
Rust representation). -/
theorem order_roundtrip (o : Order)
    (hp : -2147483648 ≤ o.price ∧ o.price < 2147483648)
    (hq : -2147483648 ≤ o.qty ∧ o.qty < 2147483648) :
    decodeOrder o.encode_order = Except.ok o := by
  simp [Order.encode_order, decodeOrder, reqField, getField,
    Json.lookupAll, asString, asI32, hp.1, hp.2, hq.1, hq.2]

/-- C8 (witness): the order of the spec's example —
new("ACCT1","TESTEX","FOOBAR",500,100,"buy","limit") — round-trips to a
structurally identical order. -/
theorem order_roundtrip_witness :
    decodeOrder
        (Order.new "ACCT1" "TESTEX" "FOOBAR" 500 100 "buy"
          "limit").encode_order =
      Except.ok (Order.new "ACCT1" "TESTEX" "FOOBAR" 500 100 "buy"
        "limit") :=
  order_roundtrip (Order.new "ACCT1" "TESTEX" "FOOBAR" 500 100 "buy"
    "limit") (by decide) (by decide)

/-- C9: process_order builds its request with the JSON serialization of
the order as body, the per-venue/per-symbol orders endpoint as URL, the
api key under the header named exactly X-Starfighter-Authorization; and
it decodes the response single-shape: any response whose decode into
OrderResponse fails yields exactly StockfighterErr::Serde, never a domain
error. -/
theorem process_order_request_shape
    (o : Order) (env : String) (r : HttpOutcome) :
    (o.process_order env r).1.url =
      STOCKFIGHTER_API_URL ++ "/venues/" ++ o.venue ++ "/stocks/" ++
        o.stock ++ "/orders" ∧
    (o.process_order env r).1.headerName = "X-Starfighter-Authorization" ∧
    (o.process_order env r).1.headerValue = get_apikey env ∧
    (o.process_order env r).1.body = o.encode_order ∧
    (∀ b e, r = HttpOutcome.body b →
      from_str decodeOrderResponse b = Except.error e →
      (o.process_order env r).2 =
        Except.error (StockfighterErr.Serde e)) := by
  refine ⟨rfl, rfl, rfl, rfl, ?_⟩
  intro b e hr hd
  subst hr
  simp [Order.process_order, hd]

/-- C9 (witness): for the spec's example order, a key and a body that is
not valid JSON, the request has the documented URL, header name, key and
encoded body, and the result is exactly a Serde error. -/
theorem process_order_request_shape_witness :
    ((Order.new "ACCT1" "TESTEX" "FOOBAR" 500 100 "buy"
        "limit").process_order "secret-key"
        (HttpOutcome.body (Except.error "expected value at line 1"))).1.url =
      "https://api.stockfighter.io/ob/api/venues/TESTEX/stocks/FOOBAR/orders" ∧
    ((Order.new "ACCT1" "TESTEX" "FOOBAR" 500 100 "buy"
        "limit").process_order "secret-key"
        (HttpOutcome.body
          (Except.error "expected value at line 1"))).1.headerName =
      "X-Starfighter-Authorization" ∧
    ((Order.new "ACCT1" "TESTEX" "FOOBAR" 500 100 "buy"
        "limit").process_order "secret-key"
        (HttpOutcome.body
          (Except.error "expected value at line 1"))).2 =
      Except.error (StockfighterErr.Serde "expected value at line 1") :=
  ⟨(process_order_request_shape (Order.new "ACCT1" "TESTEX" "FOOBAR" 500
      100 "buy" "limit") "secret-key"
      (HttpOutcome.body (Except.error "expected value at line 1"))).1,
   (process_order_request_shape (Order.new "ACCT1" "TESTEX" "FOOBAR" 500
      100 "buy" "limit") "secret-key"
      (HttpOutcome.body (Except.error "expected value at line 1"))).2.1,
   (process_order_request_shape (Order.new "ACCT1" "TESTEX" "FOOBAR" 500
      100 "buy" "limit") "secret-key"
      (HttpOutcome.body
        (Except.error "expected value at line 1"))).2.2.2.2
     (Except.error "expected value at line 1")
     "expected value at line 1" rfl rfl⟩

/-- C10: heartbeat forces the venue's ok flag to false up front, so after
any errored call — transport, body-read or decode failure, summarized as
the call returning Err — the venue object equals its prior state with ok
set to false: ok is false regardless of its prior value and venue code
and error message are unchanged. -/
theorem heartbeat_error_frame
    (v : StockfighterVenue) (r : HttpOutcome)
    (h : ∃ e, (v.heartbeat r).2 = Except.error e) :
    (v.heartbeat r).1 = { v with ok := false } := by
  obtain ⟨e, he⟩ := h
  cases r with
  | sendErr s => rfl
  | readErr s => rfl
  | body b =>
      cases hfs : from_str decodeVenue b with
      | error s => simp [StockfighterVenue.heartbeat, hfs]
      | ok sv => simp [StockfighterVenue.heartbeat, hfs] at he

/-- C10 (witness): a venue whose ok flag was true before a transport
error is false afterwards, its venue code and stale error message
untouched. -/
theorem heartbeat_error_frame_witness :
    (({ venue := "TESTEX", ok := true,
        error := "stale message" } : StockfighterVenue).heartbeat
        (HttpOutcome.sendErr "connection refused")).1 =
      { venue := "TESTEX", ok := false, error := "stale message" } :=
  heartbeat_error_frame
    { venue := "TESTEX", ok := true, error := "stale message" }
    (HttpOutcome.sendErr "connection refused")
    ⟨StockfighterErr.Hyper "connection refused", rfl⟩

end Market
